import Mathlib

/-!
Shallow embedding of the `nsapi` client library (HN67/nsapi) in Lean 4,
used to verify the natural-language specification of the client against
the code of `src/nsapi/core.py` and `src/nsapi/resources.py`.

Modelling conventions:
* Python floats used for timestamps (`time.time()`) are modelled as `ℚ`.
* `datetime` instants for the staleness policies are modelled as seconds
  since an epoch (`Nat`), with `date` = division by 86400 and time-of-day
  = remainder.
* HTTP responses are modelled as a record of status code, header
  association list and body text; the remote server is passed in as data
  (a concrete response, or a function from requests to responses), so a
  network call becomes function application.
* Exceptions become `Except` / explicit result constructors.
-/

namespace NSApi

/-! ### RateLimiter (core.py lines 94-144) -/

/-- State of `nsapi.core.RateLimiter`: the construction parameters
(`requestLimit`, `cooldownPeriod`, `spacePeriod`) plus the mutable fields
`lockTime` and `count` (initialised to 0 by `__init__`). -/
structure RateLimiter where
  requestLimit : Nat
  cooldownPeriod : ℚ
  spacePeriod : ℚ
  lockTime : ℚ
  count : Nat
deriving DecidableEq, Repr

/-- `RateLimiter.update` (core.py lines 123-136).  `now` is the value of
`time.time()` at the call.  The Python guard `if count:` is falsy both for
`None` and for `0`, so a supplied count of `0` is not copied; the lock is
then computed from the (possibly unchanged) stored count. -/
def RateLimiter.update (rl : RateLimiter) (now : ℚ) (count : Option Nat) : RateLimiter :=
  let c : Nat :=
    match count with
    | some k => if k = 0 then rl.count else k
    | none => rl.count
  if c ≥ rl.requestLimit then
    { rl with count := c, lockTime := now + rl.cooldownPeriod }
  else
    { rl with count := c, lockTime := now + rl.spacePeriod }

/-! ### Responses, errors, and the request path (core.py lines 152-209, 275-345) -/

/-- An HTTP response as seen by the client: status code, response headers
(association list, first match wins as in a header map), and body text. -/
structure Response where
  status : Nat
  headers : List (String × String)
  text : String
deriving DecidableEq, Repr

/-- `requests.Response.ok`: true iff `status_code < 400`
(so 3xx responses count as "ok"). -/
def Response.ok (r : Response) : Bool := r.status < 400

/-- Header lookup (`response.headers[key]` returning `None` when absent). -/
def headerGet (hs : List (String × String)) (key : String) : Option String :=
  (hs.find? (fun p => p.1 = key)).map Prod.snd

/-- Value of a decimal digit character, if it is one. -/
def digit? (c : Char) : Option Nat :=
  if 48 ≤ c.toNat ∧ c.toNat ≤ 57 then some (c.toNat - 48) else none

/-- Accumulating decimal evaluation of a character list; `none` marks
that no digit has been read yet or a non-digit was hit. -/
def digitsVal : List Char → Option Nat → Option Nat
  | [], acc => acc
  | c :: cs, acc =>
    match digit? c with
    | none => none
    | some d => digitsVal cs (some (acc.getD 0 * 10 + d))

/-- Python `int(s)` on a header value, as far as the client exercises
it: a nonempty string of decimal digits parses to its value, anything
else raises `ValueError` (leading sign and whitespace, which `int`
would also accept, never occur in this header and are not modelled). -/
def parseNat? (s : String) : Option Nat := digitsVal s.data none

/-- The error kinds raised on the request path: the library exceptions of
`nsapi/exceptions.py` (`APIError`, `AuthError`, `ResourceError`) plus the
standard-library `ValueError` (raised by `as_xml` and `int`) and
`KeyError` (raised by a missing header subscript). -/
inductive NSError where
  | apiError (msg : String)
  | authError (msg : String)
  | resourceError (msg : String)
  | valueError (msg : String)
  | keyError (key : String)
deriving DecidableEq, Repr

/-- `NSRequester.request` (core.py lines 184-209).  URL and header
construction is abstracted away (the server's answer `resp` is passed in
directly); the modelled behaviour is: wait on the rate limiter, perform
the GET, feed `int(response.headers["X-Ratelimit-Requests-Seen"])` into
`RateLimiter.update`, and return the response unchanged — the status code
is never inspected here.  A missing header raises `KeyError`, a
non-numeric one raises `ValueError` from `int`. -/
def NSRequester.request (rl : RateLimiter) (now : ℚ) (resp : Response) :
    Except NSError (RateLimiter × Response) :=
  match headerGet resp.headers "X-Ratelimit-Requests-Seen" with
  | none => .error (.keyError "X-Ratelimit-Requests-Seen")
  | some v =>
    match parseNat? v with
    | none => .error (.valueError v)
    | some n => .ok (rl.update now (some n), resp)

/-- `API.shards_response` (core.py lines 291-306): merges headers and
delegates to `NSRequester.shard_request`, which funnels into
`NSRequester.request`.  No status checking happens on this base-class
path (used by `Region`, `World`, `WA` and `Card`). -/
def API.shards_response (rl : RateLimiter) (now : ℚ) (resp : Response) :
    Except NSError (RateLimiter × Response) :=
  NSRequester.request rl now resp

/-! ### Auth (core.py lines 348-394) -/

/-- Session state of `nsapi.core.Auth` after construction: the three
credential strings (unset values stored as `""`). -/
structure Auth where
  autologin : String
  pin : String
  password : String
deriving DecidableEq, Repr

/-- Python `if not s: s = ""` on an optional string: both `None` and the
already-empty string become `""`; any other string is kept. -/
def falsyToEmpty : Option String → String
  | none => ""
  | some s => s

/-- `Auth.__init__` (core.py lines 351-373): raises `ValueError` iff both
`autologin` and `password` are `None`; otherwise stores the credentials,
turning falsy values into `""`, and initialises `pin` to `""`. -/
def Auth.init (autologin password : Option String) : Except NSError Auth :=
  if autologin = none ∧ password = none then
    .error (.valueError "Auth must be provided with one of autologin or password")
  else
    .ok { autologin := falsyToEmpty autologin
          pin := ""
          password := falsyToEmpty password }

/-- `Auth.update` (core.py lines 383-394): copy the `X-Pin` header value
into the session if that header is present, then likewise for
`X-Autologin`.  Presence of the header is the only guard — the value
itself is copied even when it is the empty string. -/
def Auth.update (a : Auth) (resp : Response) : Auth :=
  let a' :=
    match headerGet resp.headers "X-Pin" with
    | some v => { a with pin := v }
    | none => a
  match headerGet resp.headers "X-Autologin" with
  | some v => { a' with autologin := v }
  | none => a'

/-- `Nation.shards_response` (core.py lines 415-436): perform the request
through the base path; if `response.ok` (status < 400) update the
attached `Auth` (when any) and return the response; otherwise raise
`ResourceError` on 404, `AuthError` on 403, and `APIError` on any other
status ≥ 400.  (The Python messages wrap the nation name in single
quotes, written here with the `\x27` escape.) -/
def Nation.shards_response (nationname : String) (auth : Option Auth)
    (rl : RateLimiter) (now : ℚ) (resp : Response) :
    Except NSError (RateLimiter × Option Auth × Response) :=
  match API.shards_response rl now resp with
  | .error e => .error e
  | .ok (rl', r) =>
    if r.ok then
      .ok (rl', auth.map (fun a => a.update r), r)
    else if r.status = 404 then
      .error (.resourceError ("Nation \x27" ++ nationname ++ "\x27 does not exist."))
    else if r.status = 403 then
      .error (.authError ("Authentication failed for \x27" ++ nationname ++ "\x27."))
    else
      .error (.apiError ("Error with retrieving info for \x27" ++ nationname ++ "\x27."))

/-! ### Paginated fetching (core.py lines 646-675 and 737-764) -/

/-- `World.happeningsResponseLimit` (core.py line 633). -/
def World.happeningsResponseLimit : Nat := 100

/-- `Card.tradeResponseLimit` (core.py line 716). -/
def Card.tradeResponseLimit : Nat := 50

/-- The fetch loop shared by `World.happenings` and `Card.trades` with
`safe=False`, against a finite server.  The server is modelled by its
remaining item list (newest first): each request serves the next
`limit` items, and deriving the cursor from the oldest element of a full
page narrows the next query to exactly the unserved remainder (see
`filter_lt_of_sorted_append` below for the bridge to the `beforeid` /
`beforetime` cursor of the source).  The loop issues one unconditional
first request, then repeats while the page just received has exactly
`limit` elements, collecting the pages in request order.
`fuel` bounds the recursion; `fetchPages` supplies `items.length`, which
is sufficient because every recursive step consumes at least one item
(for `limit > 0`; with `limit = 0` the Python loop would never
terminate, since an empty page has length equal to the limit). -/
def fetchPagesAux (limit : Nat) : Nat → List α → List (List α)
  | 0, items => [items.take limit]
  | fuel + 1, items =>
    let page := items.take limit
    if page.length = limit ∧ 0 < limit then
      page :: fetchPagesAux limit fuel (items.drop limit)
    else
      [page]

/-- The pages produced by the `safe=False` fetch loop, in request order. -/
def fetchPages (limit : Nat) (items : List α) : List (List α) :=
  fetchPagesAux limit items.length items

/-! ### Two-phase command protocol (core.py lines 577-606) -/

/-- Completed XML elements (`xml.etree.ElementTree.Element`): tag, text
(`None` modelled as `""`, matching the `node.text if node.text else ""`
coercions in the source) and child list. -/
inductive XML where
  | elem (tag : String) (text : String) (children : List XML)

/-- Tag of an element. -/
def XML.tag : XML → String
  | .elem t _ _ => t

/-- Text of an element. -/
def XML.text : XML → String
  | .elem _ s _ => s

/-- Children of an element. -/
def XML.children : XML → List XML
  | .elem _ _ c => c

/-- A request sent during `Nation.execute_command`: the command, the
`mode` parameter, the `token` parameter (absent on the prepare phase)
and the remaining command parameters. -/
structure CmdRequest where
  c : String
  mode : String
  token : Option String
  params : List (String × String)
deriving DecidableEq, Repr

/-- Outcome of `Nation.execute_command`: the `ValueError` raised when the
prepare response's first child is not a `SUCCESS` node (carrying the
message), the `IndexError` raised by `as_xml(prepare.text)[0]` when the
prepare root has no children, or the execute response's root. -/
inductive CmdResult where
  | rejected (msg : String)
  | indexError
  | ok (root : XML)

/-- `Nation.execute_command` (core.py lines 577-606).  The server is a
function from a command request to the parsed XML root of its response
(response transport and `as_xml` parsing are abstracted; the status
checks of the transport layer are modelled separately in
`Nation.shards_response`).  Returns the outcome together with the list of
requests sent, in order.  The Python `ValueError` message also
interpolates the raw parameters dict, which is elided here; the server
message `node.text` is carried verbatim. -/
def Nation.execute_command (command : String) (params : List (String × String))
    (server : CmdRequest → XML) : CmdResult × List CmdRequest :=
  let prepareReq : CmdRequest := ⟨command, "prepare", none, params⟩
  let prepareRoot := server prepareReq
  match prepareRoot.children.head? with
  | none => (.indexError, [prepareReq])
  | some node =>
    if node.tag ≠ "SUCCESS" then
      (.rejected ("Command \x27command=" ++ command ++ "\x27 was not succesful." ++
        " Got message: \x27" ++ node.text ++ "\x27"), [prepareReq])
    else
      let token := node.text
      let executeReq : CmdRequest := ⟨command, "execute", some token, params⟩
      (.ok (server executeReq), [prepareReq, executeReq])

/-! ### Staleness policies (resources.py lines 89-137) -/

/-- Naive `datetime` instants are modelled as seconds since an epoch;
`.date()` is division by this constant and `.time()` the remainder. -/
def secondsPerDay : Nat := 86400

/-- `datetime.datetime.combine(date, time)`. -/
def combineDayTime (day tod : Nat) : Nat := day * secondsPerDay + tod

/-- `Resource.outdated` (resources.py lines 96-109): the base policy
always returns `False` regardless of the previous and current times. -/
def Resource.outdated (previous : Nat) (current : Nat) : Bool := false

/-- `DailyResource.outdated` (resources.py lines 118-137): take the
`updateTime` time-of-day on the same date as `previous`; if that instant
is strictly before `previous`, move it one day later; the resource is
outdated iff `current` is at or after that instant.  (Note the strict
`<` in the source: when `previous` falls exactly on the update time, the
instant is not moved to the next day.) -/
def DailyResource.outdated (updateTime : Nat) (previous current : Nat) : Bool :=
  let nextUpdate := combineDayTime (previous / secondsPerDay) updateTime
  let nextUpdate := if nextUpdate < previous then nextUpdate + secondsPerDay else nextUpdate
  decide (nextUpdate ≤ current)

/-- Modelled from the spec and the source docstring of
`DailyResource.outdated` ("the first updateTime that occurs after
previous"): the first instant with time-of-day `updateTime` strictly
after `previous`. -/
def firstOccurrenceAfter (updateTime previous : Nat) : Nat :=
  if previous % secondsPerDay < updateTime then
    combineDayTime (previous / secondsPerDay) updateTime
  else
    combineDayTime (previous / secondsPerDay + 1) updateTime

/-- The staleness predicate as the claim and the source docstring state
it: `current` falls on or after the first occurrence of the update
time-of-day after `previous`. -/
def claimedDailyOutdated (updateTime previous current : Nat) : Bool :=
  decide (firstOccurrenceAfter updateTime previous ≤ current)

/-! ### ResourceManager.update (resources.py lines 140-218) -/

/-- The data of a `Resource` as `ResourceManager.update` consumes it:
its source URL, its name (the marker key), and its staleness policy
`outdated : previous → current → Bool` (dispatched virtually in the
source; `Resource.outdated` and `DailyResource.outdated` above are the
two implementations). -/
structure MResource where
  source : String
  name : String
  outdated : Nat → Nat → Bool

/-- The on-disk state of the marker file when `update` runs: absent
(raising `FileNotFoundError` from `open`), present but not valid JSON
(raising an uncaught decode error from `json.load`), or a stored
mapping from resource name to timestamp. -/
inductive MarkerFile where
  | missing
  | corrupt
  | stored (entries : List (String × Nat))

/-- `marker[name]` lookup (`resource.name not in marker` test). -/
def lookupEntry (m : List (String × Nat)) (k : String) : Option Nat :=
  (m.find? (fun p => p.1 = k)).map Prod.snd

/-- `marker[name] = value`: replace the entry if the key is present,
otherwise add it. -/
def setEntry : List (String × Nat) → String → Nat → List (String × Nat)
  | [], k, v => [(k, v)]
  | (k', v') :: rest, k, v =>
    if k' = k then (k, v) :: rest else (k', v') :: setEntry rest k v

/-- Observable outcome of a completed `ResourceManager.update` call:
how many times `download` ran, and the marker mapping written back by
the final `json.dump`. -/
structure UpdateOutcome where
  downloads : Nat
  marker : List (String × Nat)
deriving DecidableEq, Repr

/-- `ResourceManager.update` (resources.py lines 182-218).  `now` stands
for `datetime.datetime.utcnow()`, and `fileExists` for the
`os.path.isfile` test made by `verify` on the resolved path.  A missing
marker file is caught (`except FileNotFoundError`) and leads to a
download plus a fresh one-entry marker; a corrupt marker file raises out
of `json.load` — no download happens and nothing is persisted.  With a
stored marker: no entry for the resource, or an entry its policy calls
outdated, downloads and stamps `now`; otherwise `verify` downloads only
if the file was deleted out-of-band.  Every completed path persists the
marker. -/
def ResourceManager.update (res : MResource) (now : Nat) (store : MarkerFile)
    (fileExists : Bool) : Except Unit UpdateOutcome :=
  match store with
  | .corrupt => .error ()
  | .missing => .ok ⟨1, [(res.name, now)]⟩
  | .stored m =>
    match lookupEntry m res.name with
    | none => .ok ⟨1, setEntry m res.name now⟩
    | some prev =>
      if res.outdated prev now then
        .ok ⟨1, setEntry m res.name now⟩
      else
        .ok ⟨if fileExists then 0 else 1, m⟩

/-! ### Streaming dump decoding (resources.py lines 279-309) -/

mutual
/-- The elements delivered by the `end` events of
`etree.iterparse(..., events=("start", "end"))`, in event order: an
element's end event fires after all of its descendants' end events, and
the root's end event is the last of the document. -/
def XML.endEvents : XML → List XML
  | .elem t s c => endEventsList c ++ [.elem t s c]

/-- End events of a forest of sibling elements, in document order. -/
def endEventsList : List XML → List XML
  | [] => []
  | x :: xs => x.endEvents ++ endEventsList xs
end

/-- The yield guard of `DumpManager.retrieve_iterator`:
`(not tags) or element.tag in tags` — `not tags` is true both for
`None` and for an empty container, so those yield every element. -/
def keepElement (tags : Option (List String)) (e : XML) : Bool :=
  match tags with
  | none => true
  | some ts => ts.isEmpty || ts.contains e.tag

/-- `DumpManager.retrieve_iterator` (resources.py lines 279-309): the
first `next(iterator)` consumes the root's start event; the loop then
yields, for every end event in order, the completed element whenever the
guard passes.  (The `root.clear()` calls release memory and do not
affect which elements are yielded.)  Gzip decompression and file
resolution are abstracted: `root` is the parsed document root. -/
def DumpManager.retrieve_iterator (root : XML) (tags : Option (List String)) : List XML :=
  root.endEvents.filter (keepElement tags)

mutual
/-- Number of elements of a document (the element itself included)
satisfying a predicate — the count "N" of matching records. -/
def XML.countMatching (p : XML → Bool) : XML → Nat
  | .elem t s c => countMatchingList p c + (if p (.elem t s c) then 1 else 0)

/-- Number of elements in a forest satisfying a predicate. -/
def countMatchingList (p : XML → Bool) : List XML → Nat
  | [] => 0
  | x :: xs => x.countMatching p + countMatchingList p xs
end

/-! ### Concrete instances used by witnesses and counterexamples -/

/-- The rate limiter as constructed by `NSRequester.__init__`
(`requestLimit=49, cooldownPeriod=35, spacePeriod=0.65`). -/
def rlInit : RateLimiter :=
  { requestLimit := 49, cooldownPeriod := 35, spacePeriod := (13 : ℚ) / 20
    lockTime := 0, count := 0 }

/-- `rlInit` after five observed requests. -/
def rlFive : RateLimiter := { rlInit with count := 5 }

/-- A 404 response carrying the rate-limit header. -/
def resp404 : Response :=
  { status := 404, headers := [("X-Ratelimit-Requests-Seen", "5")], text := "" }

/-- A 304 response (non-2xx but `ok` in the `requests` sense) carrying
the rate-limit header. -/
def resp304 : Response :=
  { status := 304, headers := [("X-Ratelimit-Requests-Seen", "5")], text := "" }

/-- A 200 response that sets a pin and an autologin. -/
def respCreds : Response :=
  { status := 200
    headers := [("X-Ratelimit-Requests-Seen", "6"), ("X-Pin", "12345"),
      ("X-Autologin", "secret")]
    text := "" }

/-- A response whose `X-Autologin` header is present but blank. -/
def respBlankAutologin : Response :=
  { status := 200, headers := [("X-Autologin", "")], text := "" }

/-- A mock command server: the prepare phase answers
`<NATION><SUCCESS>token123</SUCCESS></NATION>`, any other request
answers `<OK>done</OK>`. -/
def cmdServerOk : CmdRequest → XML := fun r =>
  if r.mode = "prepare" then
    .elem "NATION" "" [.elem "SUCCESS" "token123" []]
  else
    .elem "OK" "done" []

/-- A mock command server whose prepare phase answers an
`<ERROR>` node. -/
def cmdServerReject : CmdRequest → XML := fun r =>
  if r.mode = "prepare" then
    .elem "NATION" "" [.elem "ERROR" "Invalid command" []]
  else
    .elem "OK" "done" []

/-- A resource whose staleness policy is the base (never stale) one. -/
def resStatic : MResource :=
  { source := "https://example.test/data.xml.gz", name := "data.xml.gz"
    outdated := Resource.outdated }

/-- Children of the sample dump document: two records and one
non-record element, one record having internal structure. -/
def dumpChildren : List XML :=
  [.elem "NATION" "a" [], .elem "COUNT" "2" [],
   .elem "NATION" "" [.elem "NAME" "b" []]]

/-- A small dump document. -/
def dumpDoc : XML := .elem "NATIONS" "" dumpChildren

/-! ### Supporting lemmas -/

/-- The stored count after `RateLimiter.update`: a nonzero supplied
count replaces the old one, a zero or absent count keeps it. -/
theorem RateLimiter.update_count (rl : RateLimiter) (now : ℚ) (c : Option Nat) :
    (rl.update now c).count =
      (match c with
        | some k => if k = 0 then rl.count else k
        | none => rl.count) := by
  cases c with
  | none =>
    by_cases h : rl.requestLimit ≤ rl.count <;> simp [RateLimiter.update, h]
  | some k =>
    by_cases hk : k = 0
    · subst hk
      by_cases h : rl.requestLimit ≤ rl.count <;> simp [RateLimiter.update, h]
    · by_cases h : rl.requestLimit ≤ k <;> simp [RateLimiter.update, hk, h]

/-- The lock deadline after `RateLimiter.update`, expressed from the
count the update stored. -/
theorem RateLimiter.update_lockTime (rl : RateLimiter) (now : ℚ) (c : Option Nat) :
    (rl.update now c).lockTime =
      now + (if rl.requestLimit ≤ (rl.update now c).count then rl.cooldownPeriod
        else rl.spacePeriod) := by
  cases c with
  | none =>
    by_cases h : rl.requestLimit ≤ rl.count <;> simp [RateLimiter.update, h]
  | some k =>
    by_cases hk : k = 0
    · subst hk
      by_cases h : rl.requestLimit ≤ rl.count <;> simp [RateLimiter.update, h]
    · by_cases h : rl.requestLimit ≤ k <;> simp [RateLimiter.update, hk, h]

/-! ### C10 -/

/-- C10: calling `RateLimiter.update` with a supplied count of exactly 0
leaves the stored count unchanged — exactly as if the count were absent —
and the lock deadline is computed from the previously stored count. -/
theorem rateLimiter_update_zero_count (rl : RateLimiter) (now : ℚ) :
    rl.update now (some 0) = rl.update now none ∧
    (rl.update now (some 0)).count = rl.count ∧
    (rl.update now (some 0)).lockTime =
      now + (if rl.requestLimit ≤ rl.count then rl.cooldownPeriod
        else rl.spacePeriod) := by
  refine ⟨rfl, ?_, ?_⟩
  · rw [RateLimiter.update_count]
    rfl
  · rw [RateLimiter.update_lockTime, RateLimiter.update_count]
    rfl

/-! ### C2 -/

/-- C2 counterexample: a supplied count of `0` does not become the
stored count — with five requests already recorded, `update (some 0)`
keeps the stored count at 5 rather than storing the supplied 0. -/
theorem rateLimiter_update_zero_supplied_not_stored :
    ((rlFive.update 100 (some 0)).count = 0) = False := by
  simp [rlFive, rlInit, RateLimiter.update]

/-- C2 (amended): a supplied nonzero count becomes the stored count; an
absent count — or a supplied count of 0, which the `if count:` guard
treats the same as absent — keeps the previously stored count; the lock
deadline is then `now + cooldownPeriod` if the stored count has reached
the request limit and `now + spacePeriod` otherwise. -/
theorem rateLimiter_update_count_and_lock (rl : RateLimiter) (now : ℚ)
    (c : Option Nat) (k : Nat) :
    (c = some k → k ≠ 0 → (rl.update now c).count = k) ∧
    (c = none ∨ c = some 0 → (rl.update now c).count = rl.count) ∧
    (rl.update now c).lockTime =
      now + (if rl.requestLimit ≤ (rl.update now c).count then rl.cooldownPeriod
        else rl.spacePeriod) := by
  refine ⟨?_, ?_, RateLimiter.update_lockTime rl now c⟩
  · rintro rfl hk
    rw [RateLimiter.update_count]
    simp [hk]
  · rintro (rfl | rfl) <;> rw [RateLimiter.update_count] <;> simp

/-- C2 witness: concrete application of
`rateLimiter_update_count_and_lock`. -/
theorem rateLimiter_update_count_and_lock_witness :
    (rlInit.update 100 (some 7)).count = 7 :=
  (rateLimiter_update_count_and_lock rlInit 100 (some 7) 7).1 rfl (by decide)

/-! ### C1 -/

/-- C1 counterexample: two concrete requests whose responses are
non-2xx yet are returned as successes.  A 404 issued through the
base-class path (`API.shards_response`, used by `Region`, `World`, `WA`
and `Card`) is returned without any error, and a 304 issued through
`Nation.shards_response` is returned as well, because the only status
check in the client is `response.ok`, i.e. `status < 400`, on the
`Nation` subclass. -/
theorem status_errors_not_raised_on_base_path :
    (API.shards_response rlInit 0 resp404).isOk = true ∧
    (Nation.shards_response "testlandia" none rlInit 0 resp304).isOk = true := by
  constructor <;> rfl

/-- C1 (amended): for requests issued through `Nation.shards_response`
(once the transport step has read the rate-limit header), a response
status of 404 raises the resource-not-found kind, 403 the
authentication-failure kind, and any other status ≥ 400 the generic API
failure; a status < 400 (2xx and 3xx alike) is returned as a success.
Requests issued through the base `API.shards_response` path never
inspect the status and return the response regardless. -/
theorem nation_status_error_taxonomy (name : String) (auth : Option Auth)
    (rl : RateLimiter) (now : ℚ) (resp : Response) (v : String) (n : Nat)
    (hv : headerGet resp.headers "X-Ratelimit-Requests-Seen" = some v)
    (hn : parseNat? v = some n) :
    (resp.status = 404 → Nation.shards_response name auth rl now resp =
      .error (.resourceError ("Nation \x27" ++ name ++ "\x27 does not exist."))) ∧
    (resp.status = 403 → Nation.shards_response name auth rl now resp =
      .error (.authError ("Authentication failed for \x27" ++ name ++ "\x27."))) ∧
    (400 ≤ resp.status → resp.status ≠ 404 → resp.status ≠ 403 →
      Nation.shards_response name auth rl now resp =
        .error (.apiError ("Error with retrieving info for \x27" ++ name ++ "\x27."))) ∧
    (resp.status < 400 →
      (Nation.shards_response name auth rl now resp).isOk = true) ∧
    (API.shards_response rl now resp).isOk = true := by
  have hreq : NSRequester.request rl now resp = .ok (rl.update now (some n), resp) := by
    unfold NSRequester.request
    rw [hv]
    simp [hn]
  refine ⟨?_, ?_, ?_, ?_, ?_⟩
  · intro h404
    simp [Nation.shards_response, API.shards_response, hreq, Response.ok, h404]
  · intro h403
    simp [Nation.shards_response, API.shards_response, hreq, Response.ok, h403]
  · intro hge h404 h403
    have hnotok : ¬ resp.status < 400 := by omega
    simp [Nation.shards_response, API.shards_response, hreq, Response.ok, hnotok,
      h404, h403]
  · intro hlt
    simp [Nation.shards_response, API.shards_response, hreq, Response.ok, hlt,
      Except.isOk, Except.toBool]
  · simp [API.shards_response, hreq, Except.isOk, Except.toBool]

/-- C1 witness: concrete application of `nation_status_error_taxonomy`
to a 404 response. -/
theorem nation_status_error_taxonomy_witness :
    Nation.shards_response "testlandia" none rlInit 0 resp404 =
      .error (.resourceError ("Nation \x27testlandia\x27 does not exist.")) :=
  (nation_status_error_taxonomy "testlandia" none rlInit 0 resp404 "5" 5
    rfl rfl).1 rfl

/-! ### C8 -/

/-- C8 counterexample: `Auth.update` does overwrite a known autologin
with a blank one when the response carries an `X-Autologin` header whose
value is the empty string — presence of the header, not nonemptiness of
its value, is the only guard in the source. -/
theorem auth_update_blank_overwrites :
    ((Auth.mk "knownvalue" "" "").update respBlankAutologin).autologin ≠
      (Auth.mk "knownvalue" "" "").autologin ∧
    ((Auth.mk "knownvalue" "" "").update respBlankAutologin).autologin = "" := by
  constructor <;> decide

/-- C8 (amended): `Auth.update` copies a pin value present in the
response headers into the session, and likewise copies a present
autologin value (even a blank one, overwriting any stored autologin);
when the `X-Autologin` header is absent the stored autologin is kept
unchanged — in particular an absent header never blanks it. -/
theorem auth_update_headers (a : Auth) (resp : Response) :
    (∀ v, headerGet resp.headers "X-Pin" = some v → (a.update resp).pin = v) ∧
    (headerGet resp.headers "X-Pin" = none → (a.update resp).pin = a.pin) ∧
    (∀ v, headerGet resp.headers "X-Autologin" = some v →
      (a.update resp).autologin = v) ∧
    (headerGet resp.headers "X-Autologin" = none →
      (a.update resp).autologin = a.autologin) := by
  cases hp : headerGet resp.headers "X-Pin" <;>
    cases ha : headerGet resp.headers "X-Autologin" <;>
      simp [Auth.update, hp, ha]

/-- C8 witness: concrete application of `auth_update_headers` to a
response carrying both credential headers. -/
theorem auth_update_headers_witness :
    ((Auth.mk "old" "" "pw").update respCreds).pin = "12345" ∧
    ((Auth.mk "old" "" "pw").update respCreds).autologin = "secret" :=
  ⟨(auth_update_headers (Auth.mk "old" "" "pw") respCreds).1 "12345" rfl,
   (auth_update_headers (Auth.mk "old" "" "pw") respCreds).2.2.1 "secret" rfl⟩

/-! ### C9 -/

/-- C9: `Auth` construction fails (with `ValueError`) iff neither a
password nor an autologin is supplied; on success the pin is the empty
string, and each unsupplied credential is stored as the empty string. -/
theorem auth_init_validation (a p : Option String) :
    ((Auth.init a p).isOk = false ↔ a = none ∧ p = none) ∧
    (∀ s, Auth.init a p = .ok s →
      s.pin = "" ∧ (a = none → s.autologin = "") ∧ (p = none → s.password = "")) := by
  by_cases h : a = none ∧ p = none
  · constructor
    · simp [Auth.init, h, Except.isOk, Except.toBool]
    · intro s hs
      rw [Auth.init, if_pos h] at hs
      exact absurd hs (by simp)
  · constructor
    · simp [Auth.init, h]
      tauto
    · intro s hs
      rw [Auth.init, if_neg h] at hs
      cases hs
      refine ⟨rfl, ?_, ?_⟩ <;> rintro rfl <;> rfl

/-- C9 witness: concrete applications of `auth_init_validation`. -/
theorem auth_init_validation_witness :
    (Auth.init none none).isOk = false ∧
    (Auth.init (some "autovalue") none).isOk = true ∧
    (Auth.mk "autovalue" "" "").pin = "" ∧
    (Auth.mk "autovalue" "" "").password = "" := by
  refine ⟨(auth_init_validation none none).1.mpr ⟨rfl, rfl⟩, rfl, ?_, ?_⟩
  · exact ((auth_init_validation (some "autovalue") none).2
      (Auth.mk "autovalue" "" "") rfl).1
  · exact ((auth_init_validation (some "autovalue") none).2
      (Auth.mk "autovalue" "" "") rfl).2.2 rfl

/-! ### C5 -/

/-- C5 counterexample: a corrupt marker store is not treated as empty.
`update` only catches `FileNotFoundError`, so the `json.load` failure on
a corrupt store propagates: the call does not behave like the
missing-store (empty) case — no download happens and no marker is
persisted. -/
theorem resourceManager_update_corrupt_raises :
    ResourceManager.update resStatic 5 MarkerFile.corrupt true ≠
      ResourceManager.update resStatic 5 MarkerFile.missing true ∧
    (ResourceManager.update resStatic 5 MarkerFile.corrupt true).isOk = false := by
  refine ⟨fun h => ?_, rfl⟩
  rw [show ResourceManager.update resStatic 5 MarkerFile.corrupt true =
      .error () from rfl,
    show ResourceManager.update resStatic 5 MarkerFile.missing true =
      .ok ⟨1, [(resStatic.name, 5)]⟩ from rfl] at h
  exact Except.noConfusion h

/-- C5 (amended): a *missing* marker store is treated as empty (the
resource is downloaded and stamped with the current time); a *corrupt*
store instead raises out of `json.load` — only `FileNotFoundError` is
caught — so nothing is downloaded or persisted.  With a stored marker:
no entry for the resource downloads and records now; an entry the
staleness policy calls outdated downloads and updates the entry; a
fresh entry only verifies the file exists, downloading exactly when the
file was deleted out-of-band; and on every one of these completed paths
the marker store is persisted (unchanged on the no-op path). -/
theorem resourceManager_update_policy (res : MResource) (now : Nat)
    (m : List (String × Nat)) (prev : Nat) (fe : Bool) :
    (ResourceManager.update res now MarkerFile.missing fe =
      .ok ⟨1, [(res.name, now)]⟩) ∧
    (lookupEntry m res.name = none →
      ResourceManager.update res now (MarkerFile.stored m) fe =
        .ok ⟨1, setEntry m res.name now⟩) ∧
    (lookupEntry m res.name = some prev → res.outdated prev now = true →
      ResourceManager.update res now (MarkerFile.stored m) fe =
        .ok ⟨1, setEntry m res.name now⟩) ∧
    (lookupEntry m res.name = some prev → res.outdated prev now = false →
      ResourceManager.update res now (MarkerFile.stored m) fe =
        .ok ⟨if fe then 0 else 1, m⟩) := by
  refine ⟨rfl, ?_, ?_, ?_⟩
  · intro h
    simp [ResourceManager.update, h]
  · intro h ho
    simp [ResourceManager.update, h, ho]
  · intro h ho
    simp [ResourceManager.update, h, ho]

/-- C5 witness: concrete application of `resourceManager_update_policy`
on the fresh-entry no-op path — no download, marker persisted
unchanged. -/
theorem resourceManager_update_policy_witness :
    ResourceManager.update resStatic 7 (MarkerFile.stored [("data.xml.gz", 3)]) true =
      .ok ⟨0, [("data.xml.gz", 3)]⟩ :=
  (resourceManager_update_policy resStatic 7 [("data.xml.gz", 3)] 3 true).2.2.2
    rfl rfl

/-! ### C6 -/

/-- C6: the never-stale policy indeed always answers `false`, but the
daily-boundary policy diverges from the claim (and from its own
docstring) when the previous fetch happened exactly at the update
time-of-day: with `updateTime` 06:00:00 (21600 s), `previous` day 0 at
06:00:00 (21600 s) and `current` day 0 at 12:00:00 (43200 s), the code
answers `true` — because the same-day update instant is pushed to the
next day only when *strictly* before `previous` — while the first
occurrence of the update time after `previous` is day 1 at 06:00:00
(108000 s), so the claimed policy answers `false`. -/
theorem dailyResource_outdated_boundary_bug :
    (∀ previous current, Resource.outdated previous current = false) ∧
    DailyResource.outdated 21600 21600 43200 = true ∧
    claimedDailyOutdated 21600 21600 43200 = false ∧
    firstOccurrenceAfter 21600 21600 = 108000 := by
  refine ⟨fun _ _ => rfl, ?_, ?_, ?_⟩ <;> decide

/-! ### C3 -/

/-- The fetch loop always produces at least one page (the first request
is unconditional). -/
theorem fetchPagesAux_ne_nil (limit fuel : Nat) (items : List α) :
    fetchPagesAux limit fuel items ≠ [] := by
  cases fuel with
  | zero => simp [fetchPagesAux]
  | succ fuel =>
    simp only [fetchPagesAux]
    split <;> simp

/-- Concatenating the fetched pages recovers exactly the served items,
provided the fuel covers the item count (each recursive call consumes
`limit ≥ 1` items, so `items.length` is always enough). -/
theorem fetchPagesAux_flatten (limit : Nat) (hl : 0 < limit) :
    ∀ fuel (items : List α), items.length ≤ fuel →
      (fetchPagesAux limit fuel items).flatten = items := by
  intro fuel
  induction fuel with
  | zero =>
    intro items h
    obtain rfl : items = [] := List.eq_nil_of_length_eq_zero (Nat.le_zero.mp h)
    simp [fetchPagesAux]
  | succ fuel ih =>
    intro items h
    simp only [fetchPagesAux]
    split
    · rename_i hc
      have hlen : limit ≤ items.length := by
        have h1 := hc.1
        rw [List.length_take] at h1
        omega

      rw [List.flatten_cons, ih (items.drop limit) (by rw [List.length_drop]; omega)]
      exact List.take_append_drop limit items
    · rename_i hc
      have hne : (items.take limit).length ≠ limit := fun heq => hc ⟨heq, hl⟩
      rw [List.length_take] at hne
      have : items.length < limit := by omega
      simp [List.take_of_length_le (Nat.le_of_lt this)]

/-- The number of requests the loop issues: one per full page plus the
final short page, i.e. `items.length / limit + 1`. -/
theorem fetchPagesAux_length (limit : Nat) (hl : 0 < limit) :
    ∀ fuel (items : List α), items.length ≤ fuel →
      (fetchPagesAux limit fuel items).length = items.length / limit + 1 := by
  intro fuel
  induction fuel with
  | zero =>
    intro items h
    obtain rfl : items = [] := List.eq_nil_of_length_eq_zero (Nat.le_zero.mp h)
    simp [fetchPagesAux]
  | succ fuel ih =>
    intro items h
    simp only [fetchPagesAux]
    split
    · rename_i hc
      have hlen : limit ≤ items.length := by
        have h1 := hc.1
        rw [List.length_take] at h1
        omega
      rw [List.length_cons, ih (items.drop limit) (by rw [List.length_drop]; omega),
        List.length_drop, Nat.div_eq_sub_div hl hlen]
    · rename_i hc
      have hne : (items.take limit).length ≠ limit := fun heq => hc ⟨heq, hl⟩
      rw [List.length_take] at hne
      have : items.length < limit := by omega
      simp [Nat.div_eq_of_lt this]

/-- Shape of the fetched pages: every page before the last is full, and
the loop stops at the first page that is strictly shorter than the
limit — that short page is the last one. -/
theorem fetchPagesAux_split (limit : Nat) (hl : 0 < limit) :
    ∀ fuel (items : List α), items.length ≤ fuel →
      ∃ full lastPage, fetchPagesAux limit fuel items = full ++ [lastPage] ∧
        (∀ p ∈ full, p.length = limit) ∧ lastPage.length < limit := by
  intro fuel
  induction fuel with
  | zero =>
    intro items h
    obtain rfl : items = [] := List.eq_nil_of_length_eq_zero (Nat.le_zero.mp h)
    exact ⟨[], [], by simp [fetchPagesAux], by simp, by simpa using hl⟩
  | succ fuel ih =>
    intro items h
    simp only [fetchPagesAux]
    split
    · rename_i hc
      have hlen : limit ≤ items.length := by
        have h1 := hc.1
        rw [List.length_take] at h1
        omega
      obtain ⟨full, lastPage, heq, hfull, hlast⟩ :=
        ih (items.drop limit) (by rw [List.length_drop]; omega)
      refine ⟨items.take limit :: full, lastPage, ?_, ?_, hlast⟩
      · rw [heq]
        rfl
      · intro p hp
        rcases List.mem_cons.mp hp with rfl | hp
        · exact hc.1
        · exact hfull p hp
    · rename_i hc
      have hne : (items.take limit).length ≠ limit := fun heq => hc ⟨heq, hl⟩
      rw [List.length_take] at hne
      have hlt : items.length < limit := by omega
      refine ⟨[], items.take limit, by simp, by simp, ?_⟩
      rw [List.length_take]
      omega

/-- Bridging the server model to the source's cursor: in a list of
strictly descending keys (ids or timestamps, newest first), every
element at or before the last element `x` of the leading segment fails
the `beforeid`/`beforetime` predicate `(· < x)` and every element after
it satisfies it, so re-querying with the cursor taken from the oldest
element of a page returns exactly the unserved remainder. -/
theorem getLast_le_of_pairwise_gt :
    ∀ (l : List Nat) (x a : Nat),
      l.Pairwise (· > ·) → l.getLast? = some x → a ∈ l → x ≤ a := by
  intro l
  induction l with
  | nil =>
    intro x a _ hx _
    cases hx
  | cons b l ih =>
    intro x a hp hx ha
    cases l with
    | nil =>
      have hxb : x = b := by simpa using hx.symm
      have hab : a = b := by simpa using ha
      omega
    | cons c l2 =>
      have hx2 : (c :: l2).getLast? = some x := by
        simpa [List.getLast?_cons_cons] using hx
      have hxl : x ∈ c :: l2 := by
        obtain ⟨hne, rfl⟩ :=
          List.mem_getLast?_eq_getLast (Option.mem_def.mpr hx2)
        exact List.getLast_mem hne
      rcases List.mem_cons.mp ha with rfl | ha2
      · have := (List.pairwise_cons.mp hp).1 x hxl
        omega
      · exact ih x a (List.pairwise_cons.mp hp).2 hx2 ha2

/-- The cursor predicate splits the sorted item list exactly at the end
of the already-fetched segment. -/
theorem filter_lt_of_sorted_append (page rest : List Nat) (x : Nat)
    (hs : (page ++ rest).Pairwise (· > ·)) (hx : page.getLast? = some x) :
    (page ++ rest).filter (fun y => decide (y < x)) = rest := by
  obtain ⟨hpage, hrest, hcross⟩ := List.pairwise_append.mp hs
  have hmem : x ∈ page := by
    obtain ⟨hne, rfl⟩ := List.mem_getLast?_eq_getLast (Option.mem_def.mpr hx)
    exact List.getLast_mem hne
  rw [List.filter_append]
  have h1 : page.filter (fun y => decide (y < x)) = [] := by
    rw [List.filter_eq_nil_iff]
    intro a ha
    simp only [decide_eq_true_eq]
    have := getLast_le_of_pairwise_gt page x a hpage hx ha
    omega
  have h2 : rest.filter (fun y => decide (y < x)) = rest := by
    rw [List.filter_eq_self]
    intro b hb
    simpa using hcross x hmem b hb
  rw [h1, h2, List.nil_append]

/-- C3 counterexample: a server holding zero items (`totalItems = 0`,
so `ceil(totalItems / pageLimit) = 0`) still receives one request — the
first request of the loop is unconditional — so the request count is
not `ceil(totalItems / pageLimit)`.  (The same overshoot happens at any
exact multiple of the page limit.) -/
theorem fetchPages_request_count_mismatch :
    (fetchPages Card.tradeResponseLimit ([] : List Nat)).length = 1 ∧
    (([] : List Nat).length + Card.tradeResponseLimit - 1) /
      Card.tradeResponseLimit = 0 := by
  exact ⟨rfl, rfl⟩

/-- C3 (amended): against a finite server of `totalItems` items served
newest-to-oldest in pages capped at the page limit (100 for happenings,
50 for trades), the non-safe fetch terminates — the loop ends by its own
stop condition, witnessed by the final short page — returning exactly
the concatenation of all pages in request order (which is exactly the
served items), stops at the first page strictly shorter than the limit,
and issues exactly `totalItems / pageLimit + 1` requests — that is,
`ceil(totalItems / pageLimit)` when `totalItems` is not a multiple of
the page limit, and one more than the claimed `ceil` count when it is
(including the empty server, which still gets one request). -/
theorem fetchPages_pagination (limit : Nat) (items : List α)
    (hl : limit = World.happeningsResponseLimit ∨ limit = Card.tradeResponseLimit) :
    (fetchPages limit items).flatten = items ∧
    (fetchPages limit items).length = items.length / limit + 1 ∧
    (∃ full lastPage, fetchPages limit items = full ++ [lastPage] ∧
      (∀ p ∈ full, p.length = limit) ∧ lastPage.length < limit) := by
  have hpos : 0 < limit := by
    rcases hl with rfl | rfl <;> decide
  exact ⟨fetchPagesAux_flatten limit hpos items.length items le_rfl,
    fetchPagesAux_length limit hpos items.length items le_rfl,
    fetchPagesAux_split limit hpos items.length items le_rfl⟩

/-- C3 witness: concrete application of `fetchPages_pagination` to a
three-item server with the happenings page limit. -/
theorem fetchPages_pagination_witness :
    (fetchPages 100 [3, 2, 1]).flatten = [3, 2, 1] ∧
    (fetchPages 100 [3, 2, 1]).length = 1 := by
  refine ⟨(fetchPages_pagination 100 [3, 2, 1] (Or.inl rfl)).1, ?_⟩
  rw [(fetchPages_pagination 100 [3, 2, 1] (Or.inl rfl)).2.1]
  rfl

/-! ### C4 -/

/-- C4: the two-phase command protocol.  If the prepare response's first
child is not a `SUCCESS` node, the command fails with the
command-rejected error carrying the server's message (`node.text`) and
the request log contains only the prepare request — in particular no
request with `mode=execute` is ever sent.  If the prepare phase
succeeds, exactly one `mode=execute` request is sent, with the same
command and parameters plus the token obtained from the prepare
response, and the XML root of the execute response is returned.
The hypothesis `hnode` states that the prepare response follows the
documented `<NATION><SUCCESS/ERROR>...</NATION>` shape, i.e. has a first
child (a childless root would instead raise `IndexError` from the `[0]`
subscript). -/
theorem execute_command_two_phase (command : String)
    (params : List (String × String)) (server : CmdRequest → XML) (node : XML)
    (hnode : (server ⟨command, "prepare", none, params⟩).children.head? = some node) :
    (node.tag ≠ "SUCCESS" →
      Nation.execute_command command params server =
        (.rejected ("Command \x27command=" ++ command ++ "\x27 was not succesful." ++
          " Got message: \x27" ++ node.text ++ "\x27"),
         [⟨command, "prepare", none, params⟩]) ∧
      ∀ r ∈ (Nation.execute_command command params server).2, r.mode ≠ "execute") ∧
    (node.tag = "SUCCESS" →
      Nation.execute_command command params server =
        (.ok (server ⟨command, "execute", some node.text, params⟩),
         [⟨command, "prepare", none, params⟩,
          ⟨command, "execute", some node.text, params⟩])) := by
  constructor
  · intro h
    constructor
    · simp [Nation.execute_command, hnode, h]
    · intro r hr
      simp [Nation.execute_command, hnode, h] at hr
      subst hr
      simp
  · intro h
    simp [Nation.execute_command, hnode, h]

/-- C4 witness: concrete applications of `execute_command_two_phase` to
a rejecting and an accepting mock server. -/
theorem execute_command_two_phase_witness :
    Nation.execute_command "giftcard" [("cardid", "5")] cmdServerReject =
      (.rejected ("Command \x27command=" ++ "giftcard" ++ "\x27 was not succesful." ++
        " Got message: \x27" ++ "Invalid command" ++ "\x27"),
       [⟨"giftcard", "prepare", none, [("cardid", "5")]⟩]) ∧
    Nation.execute_command "giftcard" [("cardid", "5")] cmdServerOk =
      (.ok (XML.elem "OK" "done" []),
       [⟨"giftcard", "prepare", none, [("cardid", "5")]⟩,
        ⟨"giftcard", "execute", some "token123", [("cardid", "5")]⟩]) := by
  constructor
  · exact ((execute_command_two_phase "giftcard" [("cardid", "5")] cmdServerReject
      (XML.elem "ERROR" "Invalid command" []) rfl).1 (by decide)).1
  · exact (execute_command_two_phase "giftcard" [("cardid", "5")] cmdServerOk
      (XML.elem "SUCCESS" "token123" []) rfl).2 rfl

/-! ### C7 -/

mutual
/-- Yielded end events match the matching-element count, elementwise. -/
theorem length_filter_endEvents (p : XML → Bool) :
    (x : XML) → ((x.endEvents.filter p).length = x.countMatching p)
  | .elem t s c => by
    rw [XML.endEvents, XML.countMatching, List.filter_append,
      List.length_append, length_filter_endEventsList p c]
    cases hp : p (.elem t s c) <;> simp [hp]

/-- Yielded end events match the matching-element count, for forests. -/
theorem length_filter_endEventsList (p : XML → Bool) :
    (l : List XML) → (((endEventsList l).filter p).length = countMatchingList p l)
  | [] => rfl
  | x :: xs => by
    rw [endEventsList, countMatchingList, List.filter_append, List.length_append,
      length_filter_endEvents p x, length_filter_endEventsList p xs]
end

/-- In a dump-shaped forest — one where no strict descendant of a
top-level element matches — the matching end events are exactly the
matching top-level elements, in document order. -/
theorem filter_endEventsList_flat (ts : List String) (children : List XML)
    (hne : ts ≠ [])
    (hflat : ∀ ch ∈ children,
      (endEventsList ch.children).filter (keepElement (some ts)) = []) :
    (endEventsList children).filter (keepElement (some ts)) =
      children.filter (fun ch => ts.contains ch.tag) := by
  have hts : ts.isEmpty = false := by
    cases ts with
    | nil => exact absurd rfl hne
    | cons a l => rfl
  induction children with
  | nil => rfl
  | cons ch rest ih =>
    rw [endEventsList, List.filter_append,
      ih (fun c hc => hflat c (List.mem_cons_of_mem ch hc))]
    cases ch with
    | elem t s c =>
      have hc0 := hflat (.elem t s c) (List.mem_cons_self _ _)
      rw [XML.children] at hc0
      rw [XML.endEvents, List.filter_append, hc0]
      by_cases hm : t ∈ ts <;>
        simp [keepElement, XML.tag, hts, hm, List.filter_cons]

/-- C7: for a dump-shaped document (root tag not in the requested
nonempty tag set, and no matching element strictly inside a record),
the streaming decoder yields exactly the matching top-level records, in
document order, and the yield count equals the number N of matching
elements in the whole document; with an absent (`None`) or empty tag
set it yields every completed element, the root itself included (as the
final yield, since the root's end event closes the document). -/
theorem retrieve_iterator_yields (root : XML) (rt rs : String)
    (children : List XML) (ts : List String) (hne : ts ≠ [])
    (hroot : ts.contains rt = false)
    (hflat : ∀ ch ∈ children,
      (endEventsList ch.children).filter (keepElement (some ts)) = []) :
    DumpManager.retrieve_iterator (.elem rt rs children) (some ts) =
      children.filter (fun ch => ts.contains ch.tag) ∧
    (DumpManager.retrieve_iterator (.elem rt rs children) (some ts)).length =
      (XML.elem rt rs children).countMatching (keepElement (some ts)) ∧
    DumpManager.retrieve_iterator root none = root.endEvents ∧
    DumpManager.retrieve_iterator root (some []) = root.endEvents ∧
    root.endEvents.getLast? = some root := by
  have hts : ts.isEmpty = false := by
    cases ts with
    | nil => exact absurd rfl hne
    | cons a l => rfl
  refine ⟨?_, ?_, ?_, ?_, ?_⟩
  · rw [DumpManager.retrieve_iterator, XML.endEvents, List.filter_append,
      filter_endEventsList_flat ts children hne hflat]
    have hkeep : keepElement (some ts) (.elem rt rs children) = false := by
      show (ts.isEmpty || ts.contains (XML.elem rt rs children).tag) = false
      rw [XML.tag, hts, hroot]
      rfl
    simp [hkeep]
  · exact length_filter_endEvents (keepElement (some ts)) (.elem rt rs children)
  · rw [DumpManager.retrieve_iterator]
    exact List.filter_eq_self.mpr (fun a _ => rfl)
  · rw [DumpManager.retrieve_iterator]
    exact List.filter_eq_self.mpr (fun a _ => rfl)
  · cases root with
    | elem t s c =>
      rw [XML.endEvents]
      exact List.getLast?_concat _

/-- C7 witness: concrete application of `retrieve_iterator_yields` to
the sample dump — the two `NATION` records are yielded, in document
order, and nothing else. -/
theorem retrieve_iterator_yields_witness :
    DumpManager.retrieve_iterator dumpDoc (some ["NATION"]) =
      [XML.elem "NATION" "a" [], XML.elem "NATION" "" [XML.elem "NAME" "b" []]] ∧
    (DumpManager.retrieve_iterator dumpDoc (some ["NATION"])).length = 2 := by
  have h := retrieve_iterator_yields dumpDoc "NATIONS" "" dumpChildren ["NATION"]
    (by simp) rfl ?hflat
  case hflat =>
    intro ch hch
    rcases List.mem_cons.mp hch with rfl | hch
    · rfl
    rcases List.mem_cons.mp hch with rfl | hch
    · rfl
    rcases List.mem_cons.mp hch with rfl | hch
    · rfl
    · cases hch
  constructor
  · exact h.1.trans rfl
  · exact (congrArg List.length h.1).trans rfl

end NSApi
